import Mathlib

/-!
Shallow embedding of the request/response protocol layer of the
`sapimclient` asynchronous REST client (`src/sapimclient/client.py`),
together with its error taxonomy (`src/sapimclient/exceptions.py`).

JSON values are modelled by the inductive `Json`; an HTTP exchange is
modelled by handing each operation the list of `HttpResponse` values the
mocked server would deliver, in order, and collecting the list of
`Request` values the operation issues.  Python-level behaviours that are
not part of the typed error taxonomy (an uncaught `IndexError` or
`TypeError`) are modelled by the `Outcome.crashed` constructor.
-/

/-- JSON values, as delivered by `response.json()`. -/
inductive Json where
  | null : Json
  | bool : Bool → Json
  | num : Int → Json
  | str : String → Json
  | arr : List Json → Json
  | obj : List (String × Json) → Json
deriving Repr

/-- Python substring test: `pat in s` for strings. -/
def containsSubstr (s pat : String) : Bool :=
  (List.range (s.length + 1)).any fun i => ((s.drop i).take pat.length) == pat

/-- Python truthiness of a JSON value (`if x:`). -/
def Json.truthy : Json → Bool
  | .null => false
  | .bool b => b
  | .num n => n != 0
  | .str s => s != ""
  | .arr xs => !xs.isEmpty
  | .obj kvs => !kvs.isEmpty

/-- Ordered dictionary lookup (`d.get(k)` on a JSON object). -/
def lookupKV (kvs : List (String × Json)) (k : String) : Option Json :=
  match kvs with
  | [] => none
  | (k2, v) :: rest => if k2 == k then some v else lookupKV rest k

/-- Equality of a JSON value with a given Python string. -/
def Json.eqStr (j : Json) (s : String) : Bool :=
  match j with
  | .str t => t == s
  | _ => false

/-- Python membership `needle in j`.  Defined for strings (substring),
lists (element membership) and dicts (key membership); `none` models the
`TypeError` raised by `in` on the remaining JSON shapes. -/
def pyContains (needle : String) : Json → Option Bool
  | .str s => some (containsSubstr s needle)
  | .arr xs => some (xs.any (fun x => x.eqStr needle))
  | .obj kvs => some ((lookupKV kvs needle).isSome)
  | _ => none

/-- Python `repr` of a JSON value, used by f-string interpolation of
containers in the error messages of `client.py`. -/
def Json.pyRepr : Json → String
  | .null => "None"
  | .bool true => "True"
  | .bool false => "False"
  | .num n => toString n
  | .str s => "\x27" ++ s ++ "\x27"
  | .arr xs => "[" ++ String.intercalate ", "
      (xs.attach.map fun x => x.1.pyRepr) ++ "]"
  | .obj kvs => "\x7b" ++ String.intercalate ", "
      (kvs.attach.map fun kv =>
        "\x27" ++ kv.1.1 ++ "\x27: " ++ kv.1.2.pyRepr) ++ "\x7d"
decreasing_by
  · have := List.sizeOf_lt_of_mem x.2
    simp only [Json.arr.sizeOf_spec]
    omega
  · have h1 := List.sizeOf_lt_of_mem kv.2
    have h2 : sizeOf kv.1.2 < sizeOf kv.1 := by
      obtain ⟨⟨a, b⟩, hm⟩ := kv
      simp only [Prod.mk.sizeOf_spec]
      omega
    simp only [Json.obj.sizeOf_spec]
    omega

/-- Python `str` of a JSON value (f-string interpolation). -/
def Json.pyStr : Json → String
  | .str s => s
  | j => j.pyRepr

/-- Python `s.split('/')`: split a character list on the separator;
the empty string splits to one empty segment, and a trailing separator
yields a final empty segment. -/
def splitSlash : List Char → List (List Char)
  | [] => [[]]
  | c :: rest =>
    let r := splitSlash rest
    if c = '/' then [] :: r
    else
      match r with
      | [] => [[c]]
      | g :: gs => (c :: g) :: gs

/-- `endpoint.split('/')[-1]`: the collection name of a resource. -/
def lastSegment (s : String) : String :=
  ⟨(splitSlash s.data).getLastD []⟩

/-- HTTP methods used by the client (`const.HTTPMethod`). -/
inductive HTTPMethod where
  | GET | POST | PUT | DELETE
deriving Repr, DecidableEq

/-- `REQUIRED_STATUS`: the per-method status whitelist of `client.py`. -/
def requiredStatus : HTTPMethod → List Nat
  | .GET => [200]
  | .POST => [200, 201]
  | .PUT => [200]
  | .DELETE => [200]

/-- The typed error taxonomy of `exceptions.py`. -/
inductive SAPError where
  | connectionError (message : String)
  | responseError (message : String)
  | badRequestError (message : String) (data : Json)
  | notModifiedError
  | alreadyExistsError (message : Json)
  | missingFieldError (fields : List (String × Json))
  | notFoundError (value : String)
  | deleteFailedError (reason : Json)
deriving Repr

/-- One HTTP response as seen by `Tenant._request`. -/
structure HttpResponse where
  status : Nat
  contentType : Option String
  body : Json
deriving Repr

/-- One HTTP request issued by the client. -/
structure Request where
  method : HTTPMethod
  uri : String
  params : List (String × Json)
  body : Option Json
deriving Repr

/-- Rendering of the `Content-Type` header inside the error message
(`None` when the header is absent, per Python f-string rules). -/
def contentTypeString : Option String → String
  | some s => s
  | none => "None"

/-- `Tenant._request`, applied to the delivered response: the 304
special case comes first, then the content-type check, then the
status-code whitelist; on success the parsed JSON body is returned
unmodified (client.py lines 119-139). -/
def tenantRequest (method : HTTPMethod) (resp : HttpResponse) :
    Except SAPError Json :=
  if resp.status == 304 then
    .error .notModifiedError
  else if (match resp.contentType with
           | some ct => ct != "application/json"
           | none => true) then
    .error (.responseError
      ("Unexpected Content-Type: " ++ contentTypeString resp.contentType))
  else if !(requiredStatus method).contains resp.status then
    .error (.badRequestError
      ("Unexpected response status: " ++ toString resp.status) resp.body)
  else
    .ok resp.body

/-- Outcome of an operation: a returned value, a raised member of the
typed error taxonomy, or an uncaught Python-level exception. -/
inductive Outcome (α : Type) where
  | ok (value : α)
  | raised (err : SAPError)
  | crashed (msg : String)
deriving Repr

def Outcome.map (f : α → β) : Outcome α → Outcome β
  | .ok v => .ok (f v)
  | .raised e => .raised e
  | .crashed m => .crashed m

/-- Result of the Python pattern `key not in data: ... else data[key]`:
the key is found, missing, or the shape does not support indexing by a
string key (`TypeError`). -/
inductive EnvLookup where
  | found (v : Json)
  | missing
  | typeError
deriving Repr

/-- `key in data` followed by `data[key]` on a JSON value. -/
def envLookup (body : Json) (key : String) : EnvLookup :=
  match body with
  | .obj kvs =>
    match lookupKV kvs key with
    | some v => .found v
    | none => .missing
  | j =>
    match pyContains key j with
    | none => .typeError
    | some true => .typeError
    | some false => .missing

/-- The interface a pydantic `Resource` subclass offers to `Tenant`:
its endpoint path and display name (class-level), the aliases of its
expand fields, the constructor `cls(**data)` (pydantic validation,
returning a message on `ValidationError`), and per-instance
`model_dump(mode=json, by_alias=True, exclude_none=True)` and the `seq`
property. -/
structure ResourceCls (α : Type) where
  attrEndpoint : String
  name : String
  expandAliases : List String
  construct : List (String × Json) → Except String α
  dump : α → List (String × Json)
  seq : α → Option String

/-- `Tenant.create` error-classification loop (client.py lines 178-184):
walk the rejected elements in order; on each element check the
`_ERROR_` message for the already-exists code, then any field value for
the missing-field code.  The full error block is kept for the fallback
message (line 185). -/
def createErrorLoop (errorData : List Json) : List Json → Outcome α
  | [] =>
    .raised (.responseError
      ("Unexpected error. " ++ Json.pyRepr (.arr errorData)))
  | e :: rest =>
    match e with
    | .obj errors =>
      let afterAlready : Outcome α :=
        match anyValueContains "TCMP_1002" errors with
        | none => .crashed "TypeError"
        | some true => .raised (.missingFieldError errors)
        | some false => createErrorLoop errorData rest
      match lookupKV errors "_ERROR_" with
      | some v =>
        if v.truthy then
          match pyContains "TCMP_35004" v with
          | none => .crashed "TypeError"
          | some true => .raised (.alreadyExistsError v)
          | some false => afterAlready
        else afterAlready
      | none => afterAlready
    | _ => .crashed "AttributeError"
where
  /-- `any(needle in value for value in errors.values())`, with the
  short-circuit evaluation order of the Python generator. -/
  anyValueContains (needle : String) : List (String × Json) → Option Bool
    | [] => some false
    | (_, v) :: rest =>
      match pyContains needle v with
      | none => none
      | some true => some true
      | some false => anyValueContains needle rest

/-- `Tenant.create` (client.py lines 141-201), applied to the responses
a mocked server delivers in order. -/
def Tenant.create (cls : ResourceCls α) (resource : α)
    (server : List HttpResponse) : Outcome α × List Request :=
  let attrResource := lastSegment cls.attrEndpoint
  let json := cls.dump resource
  let req : Request := ⟨.POST, cls.attrEndpoint, [], some (.arr [.obj json])⟩
  match server with
  | [] => (.crashed "no response", [req])
  | resp :: _ =>
    match tenantRequest .POST resp with
    | .error (.badRequestError _ data) =>
      (match envLookup data attrResource with
       | .typeError => (.crashed "TypeError", [req])
       | .missing =>
         (.raised (.responseError ("Unexpected payload. " ++ data.pyStr)), [req])
       | .found errJson =>
         match errJson with
         | .arr errorData => (createErrorLoop errorData errorData, [req])
         | _ => (.crashed "TypeError", [req]))
    | .error e => (.raised e, [req])
    | .ok body =>
      match envLookup body attrResource with
      | .typeError => (.crashed "TypeError", [req])
      | .missing =>
        (.raised (.responseError ("Unexpected payload. " ++ body.pyStr)), [req])
      | .found (.arr []) => (.crashed "IndexError", [req])
      | .found (.arr (data :: _)) =>
        (match data with
         | .obj fields =>
           match cls.construct fields with
           | .ok r => (.ok r, [req])
           | .error e => (.raised (.responseError e), [req])
         | _ => (.crashed "TypeError", [req]))
      | .found _ => (.crashed "TypeError", [req])

/-- `Tenant.update` (client.py lines 203-260). -/
def Tenant.update (cls : ResourceCls α) (resource : α)
    (server : List HttpResponse) : Outcome α × List Request :=
  let attrResource := lastSegment cls.attrEndpoint
  let json := cls.dump resource
  let req : Request := ⟨.PUT, cls.attrEndpoint, [], some (.arr [.obj json])⟩
  match server with
  | [] => (.crashed "no response", [req])
  | resp :: _ =>
    match tenantRequest .PUT resp with
    | .error .notModifiedError => (.ok resource, [req])
    | .error (.badRequestError _ data) =>
      (match envLookup data attrResource with
       | .typeError => (.crashed "TypeError", [req])
       | .missing =>
         (.raised (.responseError ("Unexpected payload. " ++ data.pyStr)), [req])
       | .found errJson =>
         match errJson with
         | .arr errorData => (updateErrorLoop errorData errorData, [req])
         | _ => (.crashed "TypeError", [req]))
    | .error e => (.raised e, [req])
    | .ok body =>
      match envLookup body attrResource with
      | .typeError => (.crashed "TypeError", [req])
      | .missing =>
        (.raised (.responseError ("Unexpected payload. " ++ body.pyStr)), [req])
      | .found (.arr []) => (.crashed "IndexError", [req])
      | .found (.arr (data :: _)) =>
        (match data with
         | .obj fields =>
           match cls.construct fields with
           | .ok r => (.ok r, [req])
           | .error e => (.raised (.responseError e), [req])
         | _ => (.crashed "TypeError", [req]))
      | .found _ => (.crashed "TypeError", [req])
where
  /-- `Tenant.update` error loop (lines 240-243): any truthy `_ERROR_`
  message raises the malformed-response error with that message. -/
  updateErrorLoop (errorData : List Json) : List Json → Outcome α
    | [] =>
      .raised (.responseError
        ("Unexpected error. " ++ Json.pyRepr (.arr errorData)))
    | e :: rest =>
      match e with
      | .obj errors =>
        (match lookupKV errors "_ERROR_" with
         | some v =>
           if v.truthy then .raised (.responseError v.pyStr)
           else updateErrorLoop errorData rest
         | none => updateErrorLoop errorData rest)
      | _ => .crashed "AttributeError"

/-- `Tenant.delete` (client.py lines 262-316). -/
def Tenant.delete (cls : ResourceCls α) (resource : α)
    (server : List HttpResponse) : Outcome Bool × List Request :=
  let attrResource := lastSegment cls.attrEndpoint
  match cls.seq resource with
  | none =>
    (.raised (.deleteFailedError
      (.str ("Resource " ++ cls.name ++ " has no unique identifier"))), [])
  | some s =>
    if s == "" then
      (.raised (.deleteFailedError
        (.str ("Resource " ++ cls.name ++ " has no unique identifier"))), [])
    else
      let uri := cls.attrEndpoint ++ "(" ++ s ++ ")"
      let req : Request := ⟨.DELETE, uri, [], none⟩
      match server with
      | [] => (.crashed "no response", [req])
      | resp :: _ =>
        match tenantRequest .DELETE resp with
        | .error (.badRequestError _ data) =>
          (match envLookup data attrResource with
           | .typeError => (.crashed "TypeError", [req])
           | .missing =>
             (.raised (.responseError ("Unexpected payload. " ++ data.pyStr)),
              [req])
           | .found errorData =>
             match envLookup errorData s with
             | .typeError => (.crashed "TypeError", [req])
             | .missing =>
               (.raised (.responseError
                 ("Unexpected payload. " ++ errorData.pyStr)), [req])
             | .found errorMessage =>
               (.raised (.deleteFailedError errorMessage), [req]))
        | .error e => (.raised e, [req])
        | .ok body =>
          match envLookup body attrResource with
          | .typeError => (.crashed "TypeError", [req])
          | .missing =>
            (.raised (.responseError ("Unexpected payload. " ++ body.pyStr)),
             [req])
          | .found json =>
            match pyContains s json with
            | none => (.crashed "TypeError", [req])
            | some false =>
              (.raised (.responseError ("Unexpected payload. " ++ json.pyStr)),
               [req])
            | some true => (.ok true, [req])

/-- `Tenant.read_seq` (client.py lines 435-469): direct single-record
fetch; the whole response body is handed to the resource constructor. -/
def Tenant.readSeq (cls : ResourceCls α) (seqv : String)
    (server : List HttpResponse) : Outcome α × List Request :=
  let uri := cls.attrEndpoint ++ "(" ++ seqv ++ ")"
  let params : List (String × Json) :=
    if cls.expandAliases.isEmpty then []
    else [("expand", .str (String.intercalate "," cls.expandAliases))]
  let req : Request := ⟨.GET, uri, params, none⟩
  match server with
  | [] => (.crashed "no response", [req])
  | resp :: _ =>
    match tenantRequest .GET resp with
    | .error e => (.raised e, [req])
    | .ok body =>
      match body with
      | .obj fields =>
        (match cls.construct fields with
         | .ok r => (.ok r, [req])
         | .error e => (.raised (.responseError e), [req]))
      | _ => (.crashed "TypeError", [req])

/-- `Tenant.read` (client.py lines 471-500): reload by identity; a
falsy `seq` raises the not-found error before any request is issued. -/
def Tenant.read (cls : ResourceCls α) (resource : α)
    (server : List HttpResponse) : Outcome α × List Request :=
  match cls.seq resource with
  | none =>
    (.raised (.notFoundError
      ("Resource " ++ cls.name ++ " has no unique identifier")), [])
  | some s =>
    if s == "" then
      (.raised (.notFoundError
        ("Resource " ++ cls.name ++ " has no unique identifier")), [])
    else Tenant.readSeq cls s server

/-- `Tenant.cancel_pipeline` (client.py lines 557-600). -/
def Tenant.cancelPipeline (jobEndpoint runSeq : String)
    (server : List HttpResponse) : Outcome Bool × List Request :=
  let uri := jobEndpoint ++ "(" ++ runSeq ++ ")"
  let req : Request := ⟨.DELETE, uri, [], none⟩
  match server with
  | [] => (.crashed "no response", [req])
  | resp :: _ =>
    match tenantRequest .DELETE resp with
    | .error (.badRequestError _ data) =>
      (match envLookup data runSeq with
       | .typeError => (.crashed "TypeError", [req])
       | .missing =>
         (.raised (.responseError ("Unexpected payload. " ++ data.pyStr)),
          [req])
       | .found errorMessage =>
         match pyContains "TCMP_60255" errorMessage with
         | none => (.crashed "TypeError", [req])
         | some true => (.ok true, [req])
         | some false =>
           (.raised (.responseError
             ("Unexpected payload. " ++ errorMessage.pyStr)), [req]))
    | .error e => (.raised e, [req])
    | .ok body =>
      match pyContains runSeq body with
      | none => (.crashed "TypeError", [req])
      | some false =>
        (.raised (.responseError ("Unexpected payload. " ++ body.pyStr)),
         [req])
      | some true => (.ok true, [req])

/-- `Tenant.run_pipeline` (client.py lines 502-555): POST the encoded
job, extract `response[pipelines][0][0]` as the created identifier and
fetch the Pipeline by identity.  Indexing the list at key `0` is
modelled for list values; an empty list is the uncaught `IndexError`. -/
def Tenant.runPipeline (jobEndpoint : String)
    (jobDump : List (String × Json)) (pipelineCls : ResourceCls α)
    (server : List HttpResponse) : Outcome α × List Request :=
  let req : Request := ⟨.POST, jobEndpoint, [], some (.arr [.obj jobDump])⟩
  match server with
  | [] => (.crashed "no response", [req])
  | resp :: rest =>
    match tenantRequest .POST resp with
    | .error (.badRequestError _ data) =>
      (match envLookup data "pipelines" with
       | .typeError => (.crashed "TypeError", [req])
       | .missing =>
         (.raised (.responseError ("Unexpected payload. " ++ data.pyStr)),
          [req])
       | .found errorData =>
         match envLookup errorData "0" with
         | .typeError => (.crashed "TypeError", [req])
         | .missing =>
           (.raised (.responseError
             ("Unexpected payload. " ++ errorData.pyStr)), [req])
         | .found msg => (.raised (.responseError msg.pyStr), [req]))
    | .error e => (.raised e, [req])
    | .ok body =>
      match envLookup body "pipelines" with
      | .typeError => (.crashed "TypeError", [req])
      | .missing =>
        (.raised (.responseError ("Unexpected payload. " ++ body.pyStr)),
         [req])
      | .found jsonData =>
        match envLookup jsonData "0" with
        | .typeError => (.crashed "TypeError", [req])
        | .missing =>
          (.raised (.responseError
            ("Unexpected payload. " ++ jsonData.pyStr)), [req])
        | .found (.arr []) => (.crashed "IndexError", [req])
        | .found (.arr (x :: _)) =>
          let out := Tenant.readSeq pipelineCls x.pyStr rest
          (out.1, req :: out.2)
        | .found _ => (.crashed "TypeError", [req])

/-- Effective page size of `Tenant.read_all` (client.py lines 341-348):
clamp to `[MIN_PAGE_SIZE, MAX_PAGE_SIZE] = [1, 100]`, then force 1 for
the `SalesTransaction` resource type (vendor defect, issue 30). -/
def effectivePageSize (isSalesTransaction : Bool) (pageSize : Int) : Int :=
  let clamped := min (max pageSize 1) 100
  if isSalesTransaction && clamped != 1 then 1 else clamped

/-- Per-item decode of one page (`resource_cls(**item)` on each element,
client.py lines 386-392); a `ValidationError` aborts with the
malformed-response error, a non-dict element is an uncaught crash. -/
def constructItems (construct : List (String × Json) → Except String α) :
    List Json → Outcome (List α)
  | [] => .ok []
  | item :: rest =>
    match item with
    | .obj fields =>
      (match construct fields with
       | .error e => .raised (.responseError e)
       | .ok y => (constructItems construct rest).map (y :: ·))
    | _ => .crashed "TypeError"

/-- The `while True` loop of `Tenant.read_all` (client.py lines
371-398), consuming the delivered responses in order.  The `retry`
helper (helpers.py, not under src) retries only on `SAPConnectionError`
with a bounded attempt count; on this deterministic response model a
retried call returns the same result, so it is the identity on
outcomes, and an exhausted response list is the connection failure that
survives the retries. -/
def readAllLoop (attr : String)
    (construct : List (String × Json) → Except String α) :
    List HttpResponse → String → List (String × Json) →
    Outcome (List α) × List Request
  | [], uri, params =>
    (.raised (.connectionError "Could not connect"),
     [⟨.GET, uri, params, none⟩])
  | resp :: rest, uri, params =>
    let req : Request := ⟨.GET, uri, params, none⟩
    match tenantRequest .GET resp with
    | .error e => (.raised e, [req])
    | .ok (.obj kvs) =>
      (match lookupKV kvs attr with
       | none =>
         (.raised (.responseError
           ("Unexpected payload. " ++ Json.pyStr (.obj kvs))), [req])
       | some (.arr items) =>
         (match constructItems construct items with
          | .crashed m => (.crashed m, [req])
          | .raised e => (.raised e, [req])
          | .ok ys =>
            match lookupKV kvs "next" with
            | some nextJson =>
              if nextJson.truthy then
                match nextJson with
                | .str s =>
                  let out := readAllLoop attr construct rest ("api" ++ s) []
                  (out.1.map (ys ++ ·), req :: out.2)
                | _ => (.crashed "TypeError", [req])
              else (.ok ys, [req])
            | none => (.ok ys, [req]))
       | some _ => (.crashed "TypeError", [req]))
    | .ok body =>
      match pyContains attr body with
      | none => (.crashed "TypeError", [req])
      | some true => (.crashed "TypeError", [req])
      | some false =>
        (.raised (.responseError ("Unexpected payload. " ++ body.pyStr)),
         [req])

/-- The initial query parameters built by `Tenant.read_all` (client.py
lines 359-368): `top`, then `$filter` and `orderBy` when truthy, then
`expand` when the resource declares expand fields. -/
def readAllParams {α} (cls : ResourceCls α) (isSalesTransaction : Bool)
    (filters : Option String) (orderBy : List String) (pageSize : Int) :
    List (String × Json) :=
  [("top", .num (effectivePageSize isSalesTransaction pageSize))]
  ++ (match filters with
      | some f => if f == "" then [] else [("$filter", Json.str f)]
      | none => [])
  ++ (if orderBy.isEmpty then []
      else [("orderBy", .str (String.intercalate "," orderBy))])
  ++ (if cls.expandAliases.isEmpty then []
      else [("expand", .str (String.intercalate "," cls.expandAliases))])

/-- `Tenant.read_all` (client.py lines 318-398): build the initial
query parameters and run the pagination loop from the resource
endpoint. -/
def Tenant.readAll (cls : ResourceCls α) (isSalesTransaction : Bool)
    (filters : Option String) (orderBy : List String) (pageSize : Int)
    (server : List HttpResponse) : Outcome (List α) × List Request :=
  let attr := lastSegment cls.attrEndpoint
  readAllLoop attr cls.construct server cls.attrEndpoint
    (readAllParams cls isSalesTransaction filters orderBy pageSize)

/-- Does a JSON value, used as a field value, contain the given vendor
code (substring test on strings, false on other shapes)? -/
def valueContains (needle : String) (v : Json) : Bool :=
  match v with
  | .str s => containsSubstr s needle
  | _ => false

/-- A rejected create element whose `_ERROR_` message carries the
already-exists vendor code `TCMP_35004`. -/
def elemAlreadyExists : Json → Bool
  | .obj kvs =>
    (match lookupKV kvs "_ERROR_" with
     | some (.str m) => containsSubstr m "TCMP_35004"
     | _ => false)
  | _ => false

/-- A rejected create element some field value of which carries the
missing-required-field vendor code `TCMP_1002`. -/
def elemMissingField : Json → Bool
  | .obj kvs => kvs.any fun kv => valueContains "TCMP_1002" kv.2
  | _ => false

/-- The `_ERROR_` message of a rejected create element. -/
def elemErrorMessage : Json → Json
  | .obj kvs => (lookupKV kvs "_ERROR_").getD .null
  | _ => .null

/-- The per-field error map of a rejected create element. -/
def elemFields : Json → List (String × Json)
  | .obj kvs => kvs
  | _ => []

/-- The create error classification written from the specification,
amended: the rejected elements are examined in order; for each element
the already-exists check is tried before the missing-field check; the
first element matching either determines the raised error; when no
element matches, the malformed-response error carries the raw error
block. -/
def classifyCreateSpec (errorData : List Json) : List Json → SAPError
  | [] => .responseError ("Unexpected error. " ++ Json.pyRepr (.arr errorData))
  | e :: rest =>
    if elemAlreadyExists e then .alreadyExistsError (elemErrorMessage e)
    else if elemMissingField e then .missingFieldError (elemFields e)
    else classifyCreateSpec errorData rest

/-- A JSON object all of whose values are strings (the wire shape of a
rejected create element). -/
def strValued : Json → Bool
  | .obj kvs => kvs.all fun kv => (match kv.2 with
      | .str _ => true
      | _ => false)
  | _ => false

/-- A well-typed create error block: a list of string-valued objects. -/
def wellTypedErrors (l : List Json) : Bool := l.all strValued

/-- One server page for the pagination driver: its element list and the
optional `next` continuation path. -/
structure PageSpec where
  items : List Json
  next : Option String

/-- The response envelope of one page: the element list keyed by the
collection name, plus the `next` token when the page has one. -/
def mkPageBody (attr : String) (p : PageSpec) : Json :=
  .obj ([(attr, .arr p.items)]
    ++ (match p.next with
        | some s => [("next", Json.str s)]
        | none => []))

/-- A well-formed JSON 200 response carrying one page. -/
def mkPageResponse (attr : String) (p : PageSpec) : HttpResponse :=
  ⟨200, some "application/json", mkPageBody attr p⟩

/-- Every page but the last carries a non-empty `next` cursor; the last
carries none. -/
def chainOk : List PageSpec → Bool
  | [] => true
  | [p] => p.next.isNone
  | p :: rest =>
    (match p.next with
     | some s => s != ""
     | none => false) && chainOk rest

/-- The requests `read_all` is expected to issue over a page chain: the
first carries the initial parameters; each continuation follows
`api + next` with no query parameters. -/
def expectedRequests (uri : String) (params : List (String × Json)) :
    List PageSpec → List Request
  | [] => []
  | p :: rest =>
    ⟨.GET, uri, params, none⟩ ::
      (match p.next with
       | some s => expectedRequests ("api" ++ s) [] rest
       | none => [])

/-- One typed field of a resource schema: its Python name and its wire
alias. -/
structure FieldSpec where
  fname : String
  wireAlias : String
deriving Repr, DecidableEq

/-- Modelled from the spec: the pydantic model base (model/base.py, not
under src) serialises a resource with
`model_dump(mode=json, by_alias=True, exclude_none=True)`: each set
field is emitted under its wire alias, unset/absent fields are omitted
and never emitted as explicit nulls (spec 4.1 Encode). -/
def encodeFields : List FieldSpec → List (String × Json) →
    List (String × Json)
  | [], _ => []
  | f :: rest, inst =>
    match lookupKV inst f.fname with
    | some v => (f.wireAlias, v) :: encodeFields rest inst
    | none => encodeFields rest inst

/-- Modelled from the spec: pydantic construction `cls(**data)` with
populate-by-alias (model/base.py, not under src): each schema field is
set from the wire mapping under its alias when present (spec 4.1
Decode). -/
def decodeFields : List FieldSpec → List (String × Json) →
    List (String × Json)
  | [], _ => []
  | f :: rest, data =>
    match lookupKV data f.wireAlias with
    | some v => (f.fname, v) :: decodeFields rest data
    | none => decodeFields rest data

/-- A field schema with name and wire alias swapped. -/
def FieldSpec.swap (f : FieldSpec) : FieldSpec := ⟨f.wireAlias, f.fname⟩

/-- The resource class induced by a field schema, with instances
represented as their set-field maps. -/
def resourceClsOf (endpoint nm : String) (schema : List FieldSpec) :
    ResourceCls (List (String × Json)) :=
  ⟨endpoint, nm, [], fun kvs => .ok (decodeFields schema kvs),
   encodeFields schema, fun _ => none⟩

/-- The mirror of the test-suite MockResource: collection `eggs`,
instances are their own field maps, identified by the `eggSeq` field. -/
def eggsCls : ResourceCls (List (String × Json)) :=
  ⟨"api/v2/eggs", "MockResource", [], fun kvs => .ok kvs, id,
   fun r => match lookupKV r "eggSeq" with
            | some (.str s) => some s
            | some _ => none
            | none => none⟩

/-- Is the raised error the malformed-response kind? -/
def SAPError.isResponseError : SAPError → Bool
  | .responseError _ => true
  | _ => false

/-- Did the exchange raise the malformed-response kind? -/
def requestRaisesMalformed (r : Except SAPError Json) : Bool :=
  match r with
  | .error e => e.isResponseError
  | .ok _ => false

/-- Did the operation raise the already-exists kind? -/
def Outcome.isAlreadyExists : Outcome α → Bool
  | .raised (.alreadyExistsError _) => true
  | _ => false

/-- Did the operation end in an uncaught Python-level exception? -/
def Outcome.isCrashed : Outcome α → Bool
  | .crashed _ => true
  | _ => false

/-- C1 counterexample: a 304 response whose content type is not
`application/json` raises the not-modified error, not the
malformed-response error, because `Tenant._request` checks the status
304 before the content type. -/
theorem c1_counterexample :
    tenantRequest .GET ⟨304, some "text/html", .null⟩ =
      .error .notModifiedError
    ∧ requestRaisesMalformed
        (tenantRequest .GET ⟨304, some "text/html", .null⟩) = false :=
  ⟨rfl, rfl⟩

/-- C1 (amended): for every response whose status is not 304 and whose
Content-Type header is not exactly `application/json`, `Tenant._request`
raises the malformed-response error, and this check is evaluated before
any status-code validation. -/
theorem c1_content_type_before_status (method : HTTPMethod)
    (resp : HttpResponse) (h304 : resp.status ≠ 304)
    (hct : resp.contentType ≠ some "application/json") :
    tenantRequest method resp =
      .error (.responseError
        ("Unexpected Content-Type: " ++ contentTypeString resp.contentType)) := by
  unfold tenantRequest
  have h1 : (resp.status == 304) = false := by
    simp [h304]
  have h2 : (match resp.contentType with
             | some ct => ct != "application/json"
             | none => true) = true := by
    cases hc : resp.contentType with
    | none => rfl
    | some ct =>
      simp only [bne_iff_ne, ne_eq, decide_eq_true_eq]
      intro hh
      exact hct (by rw [hc, hh])
  rw [h1, if_neg (by simp), if_pos h2]

/-- C1 witness: a 400-status HTML response (a status outside every
whitelist) still raises the malformed-response error, not the
rejected-request error. -/
theorem c1_witness :
    tenantRequest .GET ⟨400, some "text/html", .null⟩ =
      .error (.responseError
        ("Unexpected Content-Type: "
          ++ contentTypeString (some "text/html"))) :=
  c1_content_type_before_status .GET ⟨400, some "text/html", .null⟩
    (by decide) (by decide)

/-- The pagination loop always issues its pending request first, with
exactly the uri and parameters it was entered with. -/
theorem readAllLoop_head {α} (attr : String)
    (construct : List (String × Json) → Except String α)
    (server : List HttpResponse) (uri : String)
    (params : List (String × Json)) :
    ((readAllLoop attr construct server uri params).2).head? =
      some ⟨.GET, uri, params, none⟩ := by
  cases server with
  | nil => rfl
  | cons resp rest =>
    unfold readAllLoop
    repeat' first
      | rfl
      | split

/-- C4: the effective `top` parameter of `read_all` clamps a requested
page size below 1 up to 1 and above 100 down to 100, passes an in-bounds
value through, always uses 1 for the SalesTransaction resource type, and
is the `top` value of the first issued request. -/
theorem c4_page_size {α} (cls : ResourceCls α) (isST : Bool)
    (filters : Option String) (orderBy : List String) (pageSize : Int)
    (server : List HttpResponse) :
    (pageSize ≤ 0 → effectivePageSize isST pageSize = 1)
    ∧ (101 ≤ pageSize → effectivePageSize false pageSize = 100)
    ∧ (1 ≤ pageSize → pageSize ≤ 100 →
        effectivePageSize false pageSize = pageSize)
    ∧ effectivePageSize true pageSize = 1
    ∧ ((Tenant.readAll cls isST filters orderBy pageSize server).2.head? =
        some ⟨.GET, cls.attrEndpoint,
          readAllParams cls isST filters orderBy pageSize, none⟩) := by
  refine ⟨?_, ?_, ?_, ?_, ?_⟩
  · intro h
    unfold effectivePageSize
    have hmax : max pageSize 1 = 1 := by omega
    rw [hmax]
    simp
  · intro h
    unfold effectivePageSize
    have hmax : max pageSize 1 = pageSize := by omega
    rw [hmax]
    have hmin : min pageSize 100 = 100 := by omega
    rw [hmin]
    simp
  · intro h1 h2
    unfold effectivePageSize
    have hmax : max pageSize 1 = pageSize := by omega
    rw [hmax]
    have hmin : min pageSize 100 = pageSize := by omega
    rw [hmin]
    simp
  · unfold effectivePageSize
    simp only [Bool.true_and]
    split
    · rfl
    · rename_i h
      simp only [bne_iff_ne, ne_eq, not_not] at h
      exact h
  · unfold Tenant.readAll
    rw [readAllLoop_head]

/-- C4 witness: the clamps at -5, 250 and 42, the SalesTransaction
override, and the `top` parameter of the first request. -/
theorem c4_witness :
    effectivePageSize false (-5) = 1
    ∧ effectivePageSize false 250 = 100
    ∧ effectivePageSize false 42 = 42
    ∧ effectivePageSize true 42 = 1
    ∧ ((Tenant.readAll eggsCls false none [] 10 []).2.head? =
        some ⟨.GET, "api/v2/eggs", [("top", Json.num 10)], none⟩) :=
  ⟨(c4_page_size eggsCls false none [] (-5) []).1 (by decide),
   (c4_page_size eggsCls false none [] 250 []).2.1 (by decide),
   (c4_page_size eggsCls false none [] 42 []).2.2.1 (by decide) (by decide),
   (c4_page_size eggsCls false none [] 42 []).2.2.2.1,
   (c4_page_size eggsCls false none [] 10 []).2.2.2.2⟩

/-- C5: a resource whose `seq` is `None` or empty cannot be deleted or
reloaded by identity: both operations fail with the
has-no-unique-identifier message (delete with the delete-failed kind,
read with the not-found kind) and issue no request at all. -/
theorem c5_no_seq {α} (cls : ResourceCls α) (resource : α)
    (server : List HttpResponse)
    (h : cls.seq resource = none ∨ cls.seq resource = some "") :
    Tenant.delete cls resource server =
      (.raised (.deleteFailedError
        (.str ("Resource " ++ cls.name ++ " has no unique identifier"))), [])
    ∧ Tenant.read cls resource server =
      (.raised (.notFoundError
        ("Resource " ++ cls.name ++ " has no unique identifier")), []) := by
  rcases h with h | h
  · constructor
    · unfold Tenant.delete
      rw [h]
    · unfold Tenant.read
      rw [h]
  · constructor
    · unfold Tenant.delete
      rw [h]
      simp
    · unfold Tenant.read
      rw [h]
      simp

/-- C5 witness: a mock resource with no `eggSeq` field. -/
theorem c5_witness :
    Tenant.delete eggsCls [] [] =
      (.raised (.deleteFailedError
        (.str ("Resource " ++ "MockResource"
          ++ " has no unique identifier"))), [])
    ∧ Tenant.read eggsCls [] [] =
      (.raised (.notFoundError
        ("Resource " ++ "MockResource" ++ " has no unique identifier")), []) :=
  c5_no_seq eggsCls [] [] (Or.inl rfl)

/-- C6: a 304 response to an update returns the exact resource object
that was passed in and issues exactly the one PUT request. -/
theorem c6_update_304 {α} (cls : ResourceCls α) (resource : α)
    (resp : HttpResponse) (rest : List HttpResponse)
    (h : resp.status = 304) :
    Tenant.update cls resource (resp :: rest) =
      (.ok resource,
       [⟨.PUT, cls.attrEndpoint, [],
         some (.arr [.obj (cls.dump resource)])⟩]) := by
  have hreq : tenantRequest .PUT resp = .error .notModifiedError := by
    unfold tenantRequest
    rw [if_pos (by simp [h])]
  unfold Tenant.update
  simp only [hreq]

/-- C6 witness: a 304 response with an HTML content type still returns
the given resource unchanged. -/
theorem c6_witness :
    Tenant.update eggsCls [("name", Json.str "spamm")]
      [⟨304, some "text/html", .null⟩] =
      (.ok [("name", Json.str "spamm")],
       [⟨.PUT, "api/v2/eggs", [],
         some (.arr [.obj [("name", Json.str "spamm")]])⟩]) :=
  c6_update_304 eggsCls [("name", Json.str "spamm")]
    ⟨304, some "text/html", .null⟩ [] rfl

/-- A JSON response whose status is outside the method whitelist (and
not 304) is the rejected-request error carrying the body. -/
theorem tenantRequest_badRequest (method : HTTPMethod) (resp : HttpResponse)
    (h304 : resp.status ≠ 304)
    (hct : resp.contentType = some "application/json")
    (hst : ¬ ((requiredStatus method).contains resp.status = true)) :
    tenantRequest method resp =
      .error (.badRequestError
        ("Unexpected response status: " ++ toString resp.status) resp.body) := by
  unfold tenantRequest
  simp only [hct]
  rw [if_neg (by simp [h304]), if_neg (by simp), if_pos (by simpa using hst)]

/-- A JSON response whose status is in the method whitelist (and not
304) returns the parsed body unmodified. -/
theorem tenantRequest_ok (method : HTTPMethod) (resp : HttpResponse)
    (h304 : resp.status ≠ 304)
    (hct : resp.contentType = some "application/json")
    (hst : (requiredStatus method).contains resp.status = true) :
    tenantRequest method resp = .ok resp.body := by
  unfold tenantRequest
  simp only [hct]
  rw [if_neg (by simp [h304]), if_neg (by simp), if_neg (by simpa using hst)]

/-- C7: a cancel rejected with an error payload keyed by the pipeline
run identifier returns True when the vendor message at that key carries
`TCMP_60255`, and raises the malformed-response error carrying the
message otherwise. -/
theorem c7_cancel_pipeline (jobEndpoint runSeq m : String)
    (resp : HttpResponse) (rest : List HttpResponse)
    (h304 : resp.status ≠ 304)
    (hct : resp.contentType = some "application/json")
    (hst : ¬ ((requiredStatus .DELETE).contains resp.status = true))
    (hkey : envLookup resp.body runSeq = .found (.str m)) :
    (containsSubstr m "TCMP_60255" = true →
      Tenant.cancelPipeline jobEndpoint runSeq (resp :: rest) =
        (.ok true,
         [⟨.DELETE, jobEndpoint ++ "(" ++ runSeq ++ ")", [], none⟩]))
    ∧ (containsSubstr m "TCMP_60255" = false →
      Tenant.cancelPipeline jobEndpoint runSeq (resp :: rest) =
        (.raised (.responseError ("Unexpected payload. " ++ m)),
         [⟨.DELETE, jobEndpoint ++ "(" ++ runSeq ++ ")", [], none⟩])) := by
  have hreq := tenantRequest_badRequest .DELETE resp h304 hct hst
  constructor <;> intro hc <;>
    · unfold Tenant.cancelPipeline
      simp only [hreq, hkey, pyContains, hc, Json.pyStr]

/-- C7 witness: the benign cancel-race code is folded into success; an
unrelated message raises the malformed-response error. -/
theorem c7_witness :
    Tenant.cancelPipeline "api/v2/pipelines" "123"
      [⟨400, some "application/json",
        .obj [("123", .str "TCMP_60255:E: delJob race")]⟩] =
      (.ok true, [⟨.DELETE, "api/v2/pipelines" ++ "(" ++ "123" ++ ")",
        [], none⟩]) :=
  (c7_cancel_pipeline "api/v2/pipelines" "123" "TCMP_60255:E: delJob race"
    ⟨400, some "application/json",
      .obj [("123", .str "TCMP_60255:E: delJob race")]⟩ []
    (by decide) rfl (by decide) rfl).1 (by decide)

/-- C10: for a delete whose response passes the status whitelist (200)
and is JSON, the operation returns True exactly when the body carries
the collection key and, under it, the seq value as a key; a missing
collection key or a missing seq key raises the malformed-response error
despite the successful HTTP status. -/
theorem c10_delete_payload {α} (cls : ResourceCls α) (resource : α)
    (s : String) (resp : HttpResponse) (rest : List HttpResponse)
    (hseq : cls.seq resource = some s) (hs : (s == "") = false)
    (h304 : resp.status ≠ 304)
    (hct : resp.contentType = some "application/json")
    (hst : (requiredStatus .DELETE).contains resp.status = true) :
    let req : Request :=
      ⟨.DELETE, cls.attrEndpoint ++ "(" ++ s ++ ")", [], none⟩
    (∀ sub, envLookup resp.body (lastSegment cls.attrEndpoint) =
        .found (.obj sub) →
      ((lookupKV sub s).isSome = true →
        Tenant.delete cls resource (resp :: rest) = (.ok true, [req]))
      ∧ ((lookupKV sub s).isSome = false →
        Tenant.delete cls resource (resp :: rest) =
          (.raised (.responseError
            ("Unexpected payload. " ++ Json.pyStr (.obj sub))), [req])))
    ∧ (envLookup resp.body (lastSegment cls.attrEndpoint) = .missing →
      Tenant.delete cls resource (resp :: rest) =
        (.raised (.responseError
          ("Unexpected payload. " ++ resp.body.pyStr)), [req])) := by
  intro req
  have hreq := tenantRequest_ok .DELETE resp h304 hct hst
  constructor
  · intro sub hfound
    constructor <;> intro hkey <;>
      · unfold Tenant.delete
        simp only [hseq, hs, hreq, hfound, pyContains, hkey]
        rfl
  · intro hmiss
    unfold Tenant.delete
    simp only [hseq, hs, hreq, hmiss]
    rfl

/-- C10 witness: both sides of the iff at concrete payloads. -/
theorem c10_witness :
    Tenant.delete eggsCls [("eggSeq", Json.str "123")]
      [⟨200, some "application/json",
        .obj [("eggs", .obj [("123", .str "ok")])]⟩] =
      (.ok true, [⟨.DELETE, "api/v2/eggs" ++ "(" ++ "123" ++ ")", [], none⟩])
    ∧ Tenant.delete eggsCls [("eggSeq", Json.str "123")]
      [⟨200, some "application/json",
        .obj [("eggs", .obj [("456", .str "ok")])]⟩] =
      (.raised (.responseError
        ("Unexpected payload. "
          ++ Json.pyStr (.obj [("456", Json.str "ok")]))),
       [⟨.DELETE, "api/v2/eggs" ++ "(" ++ "123" ++ ")", [], none⟩]) :=
  ⟨((c10_delete_payload eggsCls [("eggSeq", Json.str "123")] "123"
      ⟨200, some "application/json",
        .obj [("eggs", .obj [("123", .str "ok")])]⟩ []
      rfl rfl (by decide) rfl rfl).1
      [("123", Json.str "ok")] (by rfl)).1 rfl,
   ((c10_delete_payload eggsCls [("eggSeq", Json.str "123")] "123"
      ⟨200, some "application/json",
        .obj [("eggs", .obj [("456", .str "ok")])]⟩ []
      rfl rfl (by decide) rfl rfl).1
      [("456", Json.str "ok")] (by rfl)).2 rfl⟩

/-- In a string-valued object every lookup result is a string. -/
theorem lookupKV_all_str (kvs : List (String × Json)) (k : String) (v : Json)
    (hall : (kvs.all fun kv => (match kv.2 with
      | Json.str _ => true
      | _ => false)) = true)
    (hlk : lookupKV kvs k = some v) : ∃ m, v = .str m := by
  induction kvs with
  | nil => simp [lookupKV] at hlk
  | cons kv rest ih =>
    simp only [List.all_cons, Bool.and_eq_true] at hall
    obtain ⟨h1, h2⟩ := hall
    obtain ⟨k2, v2⟩ := kv
    simp only [lookupKV] at hlk
    by_cases hk : (k2 == k) = true
    · rw [if_pos hk] at hlk
      injection hlk with hv
      subst hv
      cases v2 with
      | str m => exact ⟨m, rfl⟩
      | null => simp at h1
      | bool b => simp at h1
      | num n => simp at h1
      | arr xs => simp at h1
      | obj o => simp at h1
    · rw [if_neg hk] at hlk
      exact ih h2 hlk

/-- On a string-valued object the short-circuit `any` over the values
never hits a `TypeError` and computes the boolean `any`. -/
theorem anyValueContains_str (needle : String)
    (kvs : List (String × Json))
    (hall : (kvs.all fun kv => (match kv.2 with
      | Json.str _ => true
      | _ => false)) = true) :
    createErrorLoop.anyValueContains needle kvs =
      some (kvs.any fun kv => valueContains needle kv.2) := by
  induction kvs with
  | nil => rfl
  | cons kv rest ih =>
    simp only [List.all_cons, Bool.and_eq_true] at hall
    obtain ⟨h1, h2⟩ := hall
    obtain ⟨k2, v2⟩ := kv
    cases v2 with
    | str m =>
      unfold createErrorLoop.anyValueContains
      simp only [pyContains, List.any_cons]
      by_cases hcc : containsSubstr m needle = true
      · simp [hcc, valueContains]
      · simp only [Bool.not_eq_true] at hcc
        simp [hcc, valueContains, ih h2]
    | null => simp at h1
    | bool b => simp at h1
    | num n => simp at h1
    | arr xs => simp at h1
    | obj o => simp at h1

/-- The embedded create error loop agrees with the spec-side
classification on well-typed error blocks: elements in order, per
element the already-exists check before the missing-field check. -/
theorem createErrorLoop_eq_spec {α} (full : List Json) (l : List Json)
    (h : wellTypedErrors l = true) :
    createErrorLoop full l =
      (Outcome.raised (classifyCreateSpec full l) : Outcome α) := by
  induction l with
  | nil => rfl
  | cons e rest ih =>
    simp only [wellTypedErrors, List.all_cons, Bool.and_eq_true] at h
    obtain ⟨he, hrest⟩ := h
    have ih2 : createErrorLoop full rest =
        (Outcome.raised (classifyCreateSpec full rest) : Outcome α) := ih hrest
    cases e with
    | obj errors =>
      have hsv : (errors.all fun kv => (match kv.2 with
          | Json.str _ => true
          | _ => false)) = true := by
        simpa [strValued] using he
      have hav := anyValueContains_str "TCMP_1002" errors hsv
      cases hlk : lookupKV errors "_ERROR_" with
      | none =>
        simp only [createErrorLoop, classifyCreateSpec, hav, hlk,
          elemAlreadyExists, elemMissingField, elemFields]
        by_cases hmf :
            (errors.any fun kv => valueContains "TCMP_1002" kv.2) = true
        · simp [hmf]
        · simp only [Bool.not_eq_true] at hmf
          simp [hmf, ih2]
      | some v =>
        obtain ⟨m, rfl⟩ := lookupKV_all_str errors "_ERROR_" v hsv hlk
        simp only [createErrorLoop, classifyCreateSpec, hav, hlk,
          elemAlreadyExists, elemErrorMessage, elemMissingField, elemFields,
          Json.truthy, pyContains, Option.getD_some]
        by_cases hae : containsSubstr m "TCMP_35004" = true
        · have hm : (m != "") = true := by
            rcases eq_or_ne m "" with hm0 | hm0
            · subst hm0
              exact absurd hae (by decide)
            · simpa using hm0
          simp [hm, hae]
        · simp only [Bool.not_eq_true] at hae
          by_cases hmf :
              (errors.any fun kv => valueContains "TCMP_1002" kv.2) = true
          · simp [hae, hmf]
          · simp only [Bool.not_eq_true] at hmf
            simp [hae, hmf, ih2]
    | null => simp [strValued] at he
    | bool b => simp [strValued] at he
    | num n => simp [strValued] at he
    | str sm => simp [strValued] at he
    | arr xs => simp [strValued] at he

/-- C2 (amended): a create rejected with a well-typed payload keyed by
the collection name raises the error determined by examining the
elements in order, trying on each element the already-exists check
(`TCMP_35004` in its `_ERROR_` message, raising AlreadyExists with the
message) before the missing-field check (`TCMP_1002` in any field
value, raising MissingRequiredField with the per-field map), and
falling through to the malformed-response error carrying the raw error
block when no element matches. -/
theorem c2_create_error_priority {α} (cls : ResourceCls α) (resource : α)
    (resp : HttpResponse) (rest : List HttpResponse)
    (errorData : List Json)
    (h304 : resp.status ≠ 304)
    (hct : resp.contentType = some "application/json")
    (hst : ¬ ((requiredStatus .POST).contains resp.status = true))
    (hkey : envLookup resp.body (lastSegment cls.attrEndpoint) =
      .found (.arr errorData))
    (hwt : wellTypedErrors errorData = true) :
    Tenant.create cls resource (resp :: rest) =
      (.raised (classifyCreateSpec errorData errorData),
       [⟨.POST, cls.attrEndpoint, [],
         some (.arr [.obj (cls.dump resource)])⟩]) := by
  have hreq := tenantRequest_badRequest .POST resp h304 hct hst
  unfold Tenant.create
  simp only [hreq, hkey]
  rw [createErrorLoop_eq_spec errorData errorData hwt]

/-- C2 counterexample: when an earlier element matches the
missing-field check and only a later element carries the already-exists
code, create raises MissingRequiredField, although an element of the
payload does carry `TCMP_35004` in its `_ERROR_` message: the
already-exists priority is per element, not across the whole payload. -/
theorem c2_counterexample :
    (Tenant.create eggsCls [("name", Json.str "spamm")]
      [⟨400, some "application/json",
        .obj [("eggs", .arr
          [.obj [("name", .str "TCMP_1002:E: A value is required")],
           .obj [("_ERROR_", .str "TCMP_35004:E: already exists")]])]⟩]).1 =
      .raised (.missingFieldError
        [("name", .str "TCMP_1002:E: A value is required")])
    ∧ elemAlreadyExists
        (.obj [("_ERROR_", .str "TCMP_35004:E: already exists")]) = true
    ∧ (Tenant.create eggsCls [("name", Json.str "spamm")]
      [⟨400, some "application/json",
        .obj [("eggs", .arr
          [.obj [("name", .str "TCMP_1002:E: A value is required")],
           .obj [("_ERROR_", .str "TCMP_35004:E: already exists")]])]⟩]).1.isAlreadyExists
      = false :=
  ⟨rfl, by decide, rfl⟩

/-- C2 witness: a payload whose first element carries the
already-exists code raises AlreadyExists with that message. -/
theorem c2_witness :
    Tenant.create eggsCls [("name", Json.str "spamm")]
      [⟨400, some "application/json",
        .obj [("eggs", .arr
          [.obj [("_ERROR_", .str "TCMP_35004:E: already exists")]])]⟩] =
      (.raised (classifyCreateSpec
        [.obj [("_ERROR_", .str "TCMP_35004:E: already exists")]]
        [.obj [("_ERROR_", .str "TCMP_35004:E: already exists")]]),
       [⟨.POST, "api/v2/eggs", [],
         some (.arr [.obj [("name", Json.str "spamm")]])⟩])
    ∧ classifyCreateSpec
        [.obj [("_ERROR_", .str "TCMP_35004:E: already exists")]]
        [.obj [("_ERROR_", .str "TCMP_35004:E: already exists")]] =
      .alreadyExistsError (.str "TCMP_35004:E: already exists") :=
  ⟨c2_create_error_priority eggsCls [("name", Json.str "spamm")]
    ⟨400, some "application/json",
      .obj [("eggs", .arr
        [.obj [("_ERROR_", .str "TCMP_35004:E: already exists")]])]⟩ []
    [.obj [("_ERROR_", .str "TCMP_35004:E: already exists")]]
    (by decide) rfl (by decide) (by rfl) (by decide),
   rfl⟩

/-- A successful `_request` returns exactly the response body. -/
theorem tenantRequest_ok_inv (method : HTTPMethod) (resp : HttpResponse)
    (b : Json) (h : tenantRequest method resp = .ok b) : b = resp.body := by
  unfold tenantRequest at h
  split at h
  · simp at h
  · split at h
    · simp at h
    · split at h
      · simp at h
      · injection h with h2
        exact h2.symm

/-- C9: the extraction of the created job identifier in `run_pipeline`
is guarded against a missing `pipelines` key and a missing `0` key
(each raising the malformed-response error) but not against the list at
`0` being empty (an uncaught IndexError); when that list is non-empty
and the follow-up fetch returns an object body, the operation never
crashes: it returns a Pipeline or raises a member of the taxonomy. -/
theorem c9_run_pipeline {α} (pcls : ResourceCls α) (jobEndpoint : String)
    (jobDump : List (String × Json)) (resp : HttpResponse)
    (rest : List HttpResponse)
    (h304 : resp.status ≠ 304)
    (hct : resp.contentType = some "application/json")
    (hst : (requiredStatus .POST).contains resp.status = true) :
    (envLookup resp.body "pipelines" = .missing →
      Tenant.runPipeline jobEndpoint jobDump pcls (resp :: rest) =
        (.raised (.responseError ("Unexpected payload. " ++ resp.body.pyStr)),
         [⟨.POST, jobEndpoint, [], some (.arr [.obj jobDump])⟩]))
    ∧ (∀ jd, envLookup resp.body "pipelines" = .found jd →
        envLookup jd "0" = .missing →
        Tenant.runPipeline jobEndpoint jobDump pcls (resp :: rest) =
          (.raised (.responseError ("Unexpected payload. " ++ jd.pyStr)),
           [⟨.POST, jobEndpoint, [], some (.arr [.obj jobDump])⟩]))
    ∧ (∀ jd, envLookup resp.body "pipelines" = .found jd →
        envLookup jd "0" = .found (.arr []) →
        Tenant.runPipeline jobEndpoint jobDump pcls (resp :: rest) =
          (.crashed "IndexError",
           [⟨.POST, jobEndpoint, [], some (.arr [.obj jobDump])⟩]))
    ∧ (∀ jd x xs r2 rest2 kvs2,
        envLookup resp.body "pipelines" = .found jd →
        envLookup jd "0" = .found (.arr (x :: xs)) →
        rest = r2 :: rest2 → r2.body = .obj kvs2 →
        (Tenant.runPipeline jobEndpoint jobDump pcls
          (resp :: rest)).1.isCrashed = false) := by
  have hreq := tenantRequest_ok .POST resp h304 hct hst
  refine ⟨?_, ?_, ?_, ?_⟩
  · intro hm
    unfold Tenant.runPipeline
    simp only [hreq, hm]
  · intro jd hf hm
    unfold Tenant.runPipeline
    simp only [hreq, hf, hm]
  · intro jd hf h0
    unfold Tenant.runPipeline
    simp only [hreq, hf, h0]
  · intro jd x xs r2 rest2 kvs2 hf h0 hr hb
    subst hr
    unfold Tenant.runPipeline
    simp only [hreq, hf, h0]
    unfold Tenant.readSeq
    cases htr : tenantRequest .GET r2 with
    | error e => simp [htr, Outcome.isCrashed]
    | ok body =>
      have hb2 : body = .obj kvs2 := by
        rw [tenantRequest_ok_inv .GET r2 body htr]
        exact hb
      subst hb2
      cases hcon : pcls.construct kvs2 with
      | ok r => simp [htr, hcon, Outcome.isCrashed]
      | error e => simp [htr, hcon, Outcome.isCrashed]

/-- C9 witness: the empty-list crash and the guarded non-empty success
at concrete envelopes. -/
theorem c9_witness :
    Tenant.runPipeline "api/v2/pipelines" [("command", Json.str "Purge")]
      eggsCls
      [⟨200, some "application/json",
        .obj [("pipelines", .obj [("0", .arr [])])]⟩] =
      (.crashed "IndexError",
       [⟨.POST, "api/v2/pipelines", [],
         some (.arr [.obj [("command", Json.str "Purge")]])⟩])
    ∧ (Tenant.runPipeline "api/v2/pipelines" [("command", Json.str "Purge")]
      eggsCls
      [⟨200, some "application/json",
        .obj [("pipelines", .obj [("0", .arr [.str "789"])])]⟩,
       ⟨200, some "application/json",
        .obj [("pipelineRunSeq", .str "789")]⟩]).1.isCrashed = false :=
  ⟨(c9_run_pipeline eggsCls "api/v2/pipelines"
      [("command", Json.str "Purge")]
      ⟨200, some "application/json",
        .obj [("pipelines", .obj [("0", .arr [])])]⟩ []
      (by decide) rfl (by decide)).2.2.1
      (.obj [("0", .arr [])]) rfl rfl,
   (c9_run_pipeline eggsCls "api/v2/pipelines"
      [("command", Json.str "Purge")]
      ⟨200, some "application/json",
        .obj [("pipelines", .obj [("0", .arr [.str "789"])])]⟩
      [⟨200, some "application/json",
        .obj [("pipelineRunSeq", .str "789")]⟩]
      (by decide) rfl (by decide)).2.2.2
      (.obj [("0", .arr [.str "789"])]) (.str "789") []
      ⟨200, some "application/json",
        .obj [("pipelineRunSeq", .str "789")]⟩ []
      [("pipelineRunSeq", Json.str "789")] rfl rfl rfl rfl⟩

/-- Per-item decoding preserves the element count. -/
theorem constructItems_length {α}
    (construct : List (String × Json) → Except String α) :
    ∀ (items : List Json) (ys : List α),
    constructItems construct items = .ok ys → ys.length = items.length := by
  intro items
  induction items with
  | nil =>
    intro ys h
    simp only [constructItems] at h
    injection h with h2
    subst h2
    rfl
  | cons item rest ih =>
    intro ys h
    cases item with
    | obj fields =>
      simp only [constructItems] at h
      cases hc : construct fields with
      | error e => rw [hc] at h; simp at h
      | ok y =>
        rw [hc] at h
        cases hr : constructItems construct rest with
        | ok ys2 =>
          rw [hr] at h
          simp only [Outcome.map] at h
          injection h with h2
          subst h2
          simp [ih ys2 hr]
        | raised e => rw [hr] at h; simp [Outcome.map] at h
        | crashed m => rw [hr] at h; simp [Outcome.map] at h
    | null => simp [constructItems] at h
    | bool b => simp [constructItems] at h
    | num n => simp [constructItems] at h
    | str s => simp [constructItems] at h
    | arr xs => simp [constructItems] at h

/-- The pagination loop over a well-formed page chain yields exactly the
decoded pages, concatenated in server order, and issues exactly the
expected requests. -/
theorem readAllLoop_pages {α} (attr : String)
    (construct : List (String × Json) → Except String α)
    (hattr : (attr == "next") = false) :
    ∀ (specs : List PageSpec) (yss : List (List α)) (uri : String)
      (params : List (String × Json)),
      specs ≠ [] →
      chainOk specs = true →
      List.Forall₂
        (fun p ys => constructItems construct p.items = Outcome.ok ys)
        specs yss →
      readAllLoop attr construct (specs.map (mkPageResponse attr)) uri params
        = (.ok yss.flatten, expectedRequests uri params specs) := by
  intro specs
  induction specs with
  | nil =>
    intro yss uri params hne
    exact absurd rfl hne
  | cons p rest ih =>
    intro yss uri params hne hchain hdec
    cases yss with
    | nil => cases hdec
    | cons ys yss2 =>
      rw [List.forall₂_cons] at hdec
      obtain ⟨hpy, hrest2⟩ := hdec
      have htr : tenantRequest .GET (mkPageResponse attr p) =
          .ok (mkPageBody attr p) :=
        tenantRequest_ok .GET _ (by simp [mkPageResponse])
          (by simp [mkPageResponse]) (by simp [mkPageResponse, requiredStatus])
      cases hpn : p.next with
      | none =>
        cases rest with
        | cons q qs =>
          simp [chainOk, hpn] at hchain
        | nil =>
          cases hrest2
          unfold readAllLoop
          simp only [List.map_cons, List.map_nil, htr, mkPageBody, hpn,
            List.append_nil, lookupKV, beq_self_eq_true, if_true, hattr,
            Bool.false_eq_true, if_false, hpy]
          simp [expectedRequests, hpn]
      | some s =>
        cases rest with
        | nil =>
          simp [chainOk, hpn] at hchain
        | cons q qs =>
          simp only [chainOk, hpn, Bool.and_eq_true] at hchain
          obtain ⟨hs, hchain2⟩ := hchain
          have ihr := ih yss2 ("api" ++ s) [] (by simp) hchain2 hrest2
          unfold readAllLoop
          simp only [List.map_cons, htr, mkPageBody, hpn,
            List.singleton_append, lookupKV, beq_self_eq_true, if_true, hattr,
            Bool.false_eq_true, if_false, hpy, Json.truthy, hs]
          rw [List.map_cons] at ihr
          simp [ihr, Outcome.map, expectedRequests, hpn]

/-- One-step unfolding of the expected request chain. -/
theorem expectedRequests_cons (uri : String) (params : List (String × Json))
    (p : PageSpec) (rest : List PageSpec) :
    expectedRequests uri params (p :: rest) =
      ⟨.GET, uri, params, none⟩ ::
        (match p.next with
         | some s => expectedRequests ("api" ++ s) [] rest
         | none => []) := rfl

/-- Over a well-formed chain of N pages exactly N requests are
expected. -/
theorem expectedRequests_length :
    ∀ (specs : List PageSpec) (uri : String)
      (params : List (String × Json)),
      chainOk specs = true →
      (expectedRequests uri params specs).length = specs.length := by
  intro specs
  induction specs with
  | nil =>
    intro uri params h
    rfl
  | cons p rest ih =>
    intro uri params hchain
    cases hpn : p.next with
    | some s =>
      cases rest with
      | nil => simp [chainOk, hpn] at hchain
      | cons q qs =>
        simp only [chainOk, hpn, Bool.and_eq_true] at hchain
        rw [expectedRequests_cons, hpn]
        simp [ih ("api" ++ s) [] hchain.2]
    | none =>
      cases rest with
      | nil => simp [expectedRequests, hpn]
      | cons q qs => simp [chainOk, hpn] at hchain

/-- Requests generated with empty parameters keep empty parameters all
the way down the chain. -/
theorem expectedRequests_no_params :
    ∀ (specs : List PageSpec) (uri : String),
      ∀ r ∈ expectedRequests uri [] specs, r.params = [] := by
  intro specs
  induction specs with
  | nil =>
    intro uri r hr
    simp [expectedRequests] at hr
  | cons p rest ih =>
    intro uri r hr
    simp only [expectedRequests, List.mem_cons] at hr
    rcases hr with rfl | hr
    · rfl
    · cases hpn : p.next with
      | some s =>
        rw [hpn] at hr
        exact ih ("api" ++ s) r hr
      | none =>
        rw [hpn] at hr
        simp at hr

/-- Every continuation request carries no query parameters. -/
theorem expectedRequests_tail_params (specs : List PageSpec) (uri : String)
    (params : List (String × Json)) :
    ∀ r ∈ (expectedRequests uri params specs).tail, r.params = [] := by
  cases specs with
  | nil =>
    intro r hr
    simp [expectedRequests] at hr
  | cons p rest =>
    intro r hr
    simp only [expectedRequests, List.tail_cons] at hr
    cases hpn : p.next with
    | some s =>
      rw [hpn] at hr
      exact expectedRequests_no_params rest ("api" ++ s) r hr
    | none =>
      rw [hpn] at hr
      simp at hr

/-- Decoded pages have the source page element counts, so the flattened
sequence has the summed length. -/
theorem flatten_length_of_decode {α}
    (construct : List (String × Json) → Except String α) :
    ∀ (specs : List PageSpec) (yss : List (List α)),
      List.Forall₂
        (fun p ys => constructItems construct p.items = Outcome.ok ys)
        specs yss →
      yss.flatten.length = (specs.map (fun p => p.items.length)).sum := by
  intro specs yss h
  induction h with
  | nil => rfl
  | cons hpy hrest ih =>
    simp only [List.flatten_cons, List.map_cons, List.sum_cons,
      List.length_append, ih]
    rw [constructItems_length construct _ _ hpy]

/-- C3: over N well-formed server pages, each carrying a non-empty
`next` cursor except the last, `read_all` yields exactly the
concatenation of the decoded per-page element lists in server order
(its length is the sum of the per-page element counts), issues exactly
N GET requests in page order, the continuation requests following
`api + next` with no query parameters, and terminates at the page
without a `next` token. -/
theorem c3_pagination {α} (cls : ResourceCls α) (isST : Bool)
    (filters : Option String) (orderBy : List String) (pageSize : Int)
    (specs : List PageSpec) (yss : List (List α))
    (hattr : (lastSegment cls.attrEndpoint == "next") = false)
    (hne : specs ≠ [])
    (hchain : chainOk specs = true)
    (hdec : List.Forall₂
      (fun p ys => constructItems cls.construct p.items = Outcome.ok ys)
      specs yss) :
    Tenant.readAll cls isST filters orderBy pageSize
        (specs.map (mkPageResponse (lastSegment cls.attrEndpoint))) =
      (.ok yss.flatten,
       expectedRequests cls.attrEndpoint
         (readAllParams cls isST filters orderBy pageSize) specs)
    ∧ yss.flatten.length = (specs.map (fun p => p.items.length)).sum
    ∧ (expectedRequests cls.attrEndpoint
        (readAllParams cls isST filters orderBy pageSize) specs).length =
      specs.length
    ∧ ∀ r ∈ (expectedRequests cls.attrEndpoint
        (readAllParams cls isST filters orderBy pageSize) specs).tail,
      r.params = [] := by
  refine ⟨?_, ?_, ?_, ?_⟩
  · unfold Tenant.readAll
    exact readAllLoop_pages _ cls.construct hattr specs yss _ _
      hne hchain hdec
  · exact flatten_length_of_decode cls.construct specs yss hdec
  · exact expectedRequests_length specs _ _ hchain
  · exact expectedRequests_tail_params specs _ _

/-- C3 witness: two pages, the first carrying a continuation cursor:
both elements are yielded in order and the two requests follow the
chain, the second with no parameters. -/
theorem c3_witness :
    (Tenant.readAll eggsCls false none [] 1
        ([⟨[Json.obj [("eggSeq", Json.str "123")]],
            some "/v2/eggs?top=1&skip=1"⟩,
          ⟨[Json.obj [("eggSeq", Json.str "456")]], none⟩].map
          (mkPageResponse (lastSegment eggsCls.attrEndpoint))) =
      (.ok [[("eggSeq", Json.str "123")], [("eggSeq", Json.str "456")]],
       expectedRequests eggsCls.attrEndpoint
         (readAllParams eggsCls false none [] 1)
         [⟨[Json.obj [("eggSeq", Json.str "123")]],
            some "/v2/eggs?top=1&skip=1"⟩,
          ⟨[Json.obj [("eggSeq", Json.str "456")]], none⟩]))
    ∧ (expectedRequests eggsCls.attrEndpoint
        (readAllParams eggsCls false none [] 1)
        [⟨[Json.obj [("eggSeq", Json.str "123")]],
           some "/v2/eggs?top=1&skip=1"⟩,
         ⟨[Json.obj [("eggSeq", Json.str "456")]], none⟩]).length = 2 :=
  ⟨(c3_pagination eggsCls false none [] 1
      [⟨[Json.obj [("eggSeq", Json.str "123")]],
         some "/v2/eggs?top=1&skip=1"⟩,
       ⟨[Json.obj [("eggSeq", Json.str "456")]], none⟩]
      [[[("eggSeq", Json.str "123")]], [[("eggSeq", Json.str "456")]]]
      (by decide) (by simp) (by decide)
      (List.Forall₂.cons rfl (List.Forall₂.cons rfl List.Forall₂.nil))).1,
   (c3_pagination eggsCls false none [] 1
      [⟨[Json.obj [("eggSeq", Json.str "123")]],
         some "/v2/eggs?top=1&skip=1"⟩,
       ⟨[Json.obj [("eggSeq", Json.str "456")]], none⟩]
      [[[("eggSeq", Json.str "123")]], [[("eggSeq", Json.str "456")]]]
      (by decide) (by simp) (by decide)
      (List.Forall₂.cons rfl (List.Forall₂.cons rfl List.Forall₂.nil))).2.2.1⟩

/-- A name outside the schema is never set by decoding. -/
theorem lookupKV_decodeFields_none (schema : List FieldSpec)
    (data : List (String × Json)) (k : String)
    (hnot : k ∉ schema.map FieldSpec.fname) :
    lookupKV (decodeFields schema data) k = none := by
  induction schema with
  | nil => rfl
  | cons g rest ih =>
    simp only [List.map_cons, List.mem_cons, not_or] at hnot
    obtain ⟨h1, h2⟩ := hnot
    cases hlk : lookupKV data g.wireAlias with
    | none =>
      simp only [decodeFields, hlk]
      exact ih h2
    | some v =>
      simp only [decodeFields, hlk, lookupKV]
      rw [if_neg (by simpa using fun he => h1 he.symm)]
      exact ih h2

/-- With distinct schema names, the decoded value of a schema field is
the wire value under its alias. -/
theorem lookupKV_decodeFields (schema : List FieldSpec)
    (data : List (String × Json)) (f : FieldSpec) (hf : f ∈ schema)
    (hn : (schema.map FieldSpec.fname).Nodup) :
    lookupKV (decodeFields schema data) f.fname =
      lookupKV data f.wireAlias := by
  induction schema with
  | nil => cases hf
  | cons g rest ih =>
    simp only [List.map_cons, List.nodup_cons] at hn
    obtain ⟨hg, hn2⟩ := hn
    rcases List.mem_cons.mp hf with rfl | hf2
    · cases hlk : lookupKV data f.wireAlias with
      | some v => simp [decodeFields, hlk, lookupKV]
      | none =>
        simp only [decodeFields, hlk]
        exact lookupKV_decodeFields_none rest data f.fname hg
    · have hmem : f.fname ∈ rest.map FieldSpec.fname :=
        List.mem_map_of_mem _ hf2
      have hne : (g.fname == f.fname) = false := by
        simp only [beq_eq_false_iff_ne, ne_eq]
        intro he
        exact hg (he ▸ hmem)
      cases hlk : lookupKV data g.wireAlias with
      | some v =>
        simp only [decodeFields, hlk, lookupKV, hne, Bool.false_eq_true,
          if_false]
        exact ih hf2 hn2
      | none =>
        simp only [decodeFields, hlk]
        exact ih hf2 hn2

/-- Encoding is decoding through the schema with names and aliases
swapped. -/
theorem encodeFields_eq_swap (schema : List FieldSpec)
    (inst : List (String × Json)) :
    encodeFields schema inst =
      decodeFields (schema.map FieldSpec.swap) inst := by
  induction schema with
  | nil => rfl
  | cons g rest ih =>
    cases hlk : lookupKV inst g.fname with
    | some v => simp [encodeFields, decodeFields, FieldSpec.swap, hlk, ih]
    | none => simp [encodeFields, decodeFields, FieldSpec.swap, hlk, ih]

/-- With distinct wire aliases, the encoded value under a schema field
alias is the set value of the field, and an unset field has no entry in
the encoding. -/
theorem lookupKV_encodeFields (schema : List FieldSpec)
    (inst : List (String × Json)) (f : FieldSpec) (hf : f ∈ schema)
    (ha : (schema.map FieldSpec.wireAlias).Nodup) :
    lookupKV (encodeFields schema inst) f.wireAlias =
      lookupKV inst f.fname := by
  rw [encodeFields_eq_swap]
  have hf2 : f.swap ∈ schema.map FieldSpec.swap := List.mem_map_of_mem _ hf
  have hn : ((schema.map FieldSpec.swap).map FieldSpec.fname).Nodup := by
    rw [List.map_map]
    exact ha
  have h := lookupKV_decodeFields (schema.map FieldSpec.swap) inst f.swap
    hf2 hn
  simpa [FieldSpec.swap] using h

/-- C8: encoding a resource (set fields under wire aliases, unset
fields omitted) and decoding a mock success envelope echoing the
encoded fields under the collection key returns through `create` a
resource equal to the original on all schema fields, and unset optional
fields are never emitted. -/
theorem c8_roundtrip (endpoint nm : String) (schema : List FieldSpec)
    (inst : List (String × Json))
    (hn : (schema.map FieldSpec.fname).Nodup)
    (ha : (schema.map FieldSpec.wireAlias).Nodup) :
    Tenant.create (resourceClsOf endpoint nm schema) inst
        [⟨200, some "application/json",
          .obj [(lastSegment endpoint,
            .arr [.obj (encodeFields schema inst)])]⟩] =
      (.ok (decodeFields schema (encodeFields schema inst)),
       [⟨.POST, endpoint, [],
         some (.arr [.obj (encodeFields schema inst)])⟩])
    ∧ (∀ f ∈ schema,
        lookupKV (decodeFields schema (encodeFields schema inst)) f.fname =
          lookupKV inst f.fname)
    ∧ (∀ f ∈ schema, lookupKV inst f.fname = none →
        lookupKV (encodeFields schema inst) f.wireAlias = none) := by
  refine ⟨?_, ?_, ?_⟩
  · unfold Tenant.create
    have htr := tenantRequest_ok .POST
      ⟨200, some "application/json",
        .obj [(lastSegment endpoint, .arr [.obj (encodeFields schema inst)])]⟩
      (by simp) rfl (by simp [requiredStatus])
    simp only [resourceClsOf, htr, envLookup, lookupKV, beq_self_eq_true,
      if_true]
  · intro f hf
    rw [lookupKV_decodeFields schema _ f hf hn,
      lookupKV_encodeFields schema inst f hf ha]
  · intro f hf h0
    rw [lookupKV_encodeFields schema inst f hf ha]
    exact h0

/-- C8 witness: a two-field schema with the identifier unset: the set
field round-trips and the unset field is absent from the encoding. -/
theorem c8_witness :
    Tenant.create (resourceClsOf "api/v2/eggs" "MockResource"
        [⟨"egg_seq", "eggSeq"⟩, ⟨"name", "name"⟩])
      [("name", Json.str "spamm")]
      [⟨200, some "application/json",
        .obj [(lastSegment "api/v2/eggs",
          .arr [.obj (encodeFields [⟨"egg_seq", "eggSeq"⟩, ⟨"name", "name"⟩]
            [("name", Json.str "spamm")])])]⟩] =
      (.ok (decodeFields [⟨"egg_seq", "eggSeq"⟩, ⟨"name", "name"⟩]
        (encodeFields [⟨"egg_seq", "eggSeq"⟩, ⟨"name", "name"⟩]
          [("name", Json.str "spamm")])),
       [⟨.POST, "api/v2/eggs", [],
         some (.arr [.obj
           (encodeFields [⟨"egg_seq", "eggSeq"⟩, ⟨"name", "name"⟩]
             [("name", Json.str "spamm")])])⟩])
    ∧ lookupKV (encodeFields [⟨"egg_seq", "eggSeq"⟩, ⟨"name", "name"⟩]
        [("name", Json.str "spamm")]) "eggSeq" = none :=
  ⟨(c8_roundtrip "api/v2/eggs" "MockResource"
      [⟨"egg_seq", "eggSeq"⟩, ⟨"name", "name"⟩] [("name", Json.str "spamm")]
      (by decide) (by decide)).1,
   (c8_roundtrip "api/v2/eggs" "MockResource"
      [⟨"egg_seq", "eggSeq"⟩, ⟨"name", "name"⟩] [("name", Json.str "spamm")]
      (by decide) (by decide)).2.2 ⟨"egg_seq", "eggSeq"⟩ (by decide) rfl⟩
